import Mathlib

/-!
Verification of the lead-intake workflow of the Lead Automation System
(`src/main.py`).  The Python source is shallowly embedded below: pure
helpers become Lean functions, the spreadsheet is explicit state
(`List (List String)`, header row first), external collaborators
(scoring service, calendar, notification transports, the stdlib
ISO-8601 parser) are oracle parameters of the workflow environment,
and Python exceptions are modelled as explicit branches.  Scores are
rationals (every value the code manipulates, including the clamp
bounds and the 0.5 sentinel, is exactly representable).
-/

set_option maxRecDepth 100000

namespace LeadAuto

/-! ### MD5 (hashlib.md5), used by `Lead.__post_init__` to derive `lead_id`.
All arithmetic is on `Nat` reduced mod 2^32 exactly where the 32-bit
registers of the reference algorithm wrap. -/

def m32 : Nat := 4294967296

def mask32 : Nat := 4294967295

/-- The 64 round constants `K[i] = floor(2^32 * |sin(i+1)|)`. -/
def md5K : List Nat :=
  [0xd76aa478, 0xe8c7b756, 0x242070db, 0xc1bdceee, 0xf57c0faf, 0x4787c62a, 0xa8304613, 0xfd469501,
   0x698098d8, 0x8b44f7af, 0xffff5bb1, 0x895cd7be, 0x6b901122, 0xfd987193, 0xa679438e, 0x49b40821,
   0xf61e2562, 0xc040b340, 0x265e5a51, 0xe9b6c7aa, 0xd62f105d, 0x02441453, 0xd8a1e681, 0xe7d3fbc8,
   0x21e1cde6, 0xc33707d6, 0xf4d50d87, 0x455a14ed, 0xa9e3e905, 0xfcefa3f8, 0x676f02d9, 0x8d2a4c8a,
   0xfffa3942, 0x8771f681, 0x6d9d6122, 0xfde5380c, 0xa4beea44, 0x4bdecfa9, 0xf6bb4b60, 0xbebfbc70,
   0x289b7ec6, 0xeaa127fa, 0xd4ef3085, 0x04881d05, 0xd9d4d039, 0xe6db99e5, 0x1fa27cf8, 0xc4ac5665,
   0xf4292244, 0x432aff97, 0xab9423a7, 0xfc93a039, 0x655b59c3, 0x8f0ccc92, 0xffeff47d, 0x85845dd1,
   0x6fa87e4f, 0xfe2ce6e0, 0xa3014314, 0x4e0811a1, 0xf7537e82, 0xbd3af235, 0x2ad7d2bb, 0xeb86d391]

/-- Per-round left-rotation amounts. -/
def md5S : List Nat :=
  [7, 12, 17, 22, 7, 12, 17, 22, 7, 12, 17, 22, 7, 12, 17, 22,
   5, 9, 14, 20, 5, 9, 14, 20, 5, 9, 14, 20, 5, 9, 14, 20,
   4, 11, 16, 23, 4, 11, 16, 23, 4, 11, 16, 23, 4, 11, 16, 23,
   6, 10, 15, 21, 6, 10, 15, 21, 6, 10, 15, 21, 6, 10, 15, 21]

def bnot32 (x : Nat) : Nat := mask32 ^^^ x

def rotl32 (x s : Nat) : Nat := ((x <<< s) ||| (x >>> (32 - s))) % m32

def byteAt (l : List Nat) (i : Nat) : Nat := l.getD i 0

/-- Little-endian 32-bit word `g` of the 64-byte block starting at `base`. -/
def wordAt (l : List Nat) (base g : Nat) : Nat :=
  byteAt l (base + 4 * g) + 256 * byteAt l (base + 4 * g + 1) +
    65536 * byteAt l (base + 4 * g + 2) + 16777216 * byteAt l (base + 4 * g + 3)

/-- One of the 64 MD5 rounds on the register quadruple. -/
def md5Step (M : Nat → Nat) (st : Nat × Nat × Nat × Nat) (i : Nat) : Nat × Nat × Nat × Nat :=
  let A := st.1
  let B := st.2.1
  let C := st.2.2.1
  let D := st.2.2.2
  let FG : Nat × Nat :=
    if i < 16 then ((B &&& C) ||| (bnot32 B &&& D), i)
    else if i < 32 then ((D &&& B) ||| (bnot32 D &&& C), (5 * i + 1) % 16)
    else if i < 48 then (B ^^^ C ^^^ D, (3 * i + 5) % 16)
    else (C ^^^ (B ||| bnot32 D), (7 * i) % 16)
  let F := (FG.1 + A + md5K.getD i 0 + M FG.2) % m32
  (D, (B + rotl32 F (md5S.getD i 0)) % m32, B, C)

/-- The 8 little-endian bytes of the bit length, for the final padding. -/
def lenBytes (n : Nat) : List Nat :=
  [n % 256, (n >>> 8) % 256, (n >>> 16) % 256, (n >>> 24) % 256,
   (n >>> 32) % 256, (n >>> 40) % 256, (n >>> 48) % 256, (n >>> 56) % 256]

/-- Append `0x80`, zero bytes to 56 mod 64, then the 64-bit message bit length. -/
def md5Pad (msg : List Nat) : List Nat :=
  let L := msg.length
  let zeros := (120 - (L + 1) % 64) % 64
  msg ++ 128 :: List.replicate zeros 0 ++ lenBytes (8 * L)

def md5Blocks (padded : List Nat) : Nat × Nat × Nat × Nat :=
  (List.range (padded.length / 64)).foldl
    (fun st b =>
      let r := (List.range 64).foldl (md5Step (wordAt padded (64 * b))) st
      ((st.1 + r.1) % m32, (st.2.1 + r.2.1) % m32,
       (st.2.2.1 + r.2.2.1) % m32, (st.2.2.2 + r.2.2.2) % m32))
    (0x67452301, 0xefcdab89, 0x98badcfe, 0x10325476)

def hexDigit (n : Nat) : Char := if n < 10 then Char.ofNat (48 + n) else Char.ofNat (87 + n)

def byteHexChars (b : Nat) : List Char := [hexDigit (b / 16), hexDigit (b % 16)]

def wordLEBytes (w : Nat) : List Nat :=
  [w % 256, (w >>> 8) % 256, (w >>> 16) % 256, (w >>> 24) % 256]

/-- The 32 characters of the lowercase hexadecimal MD5 digest. -/
def md5HexChars (msg : List Nat) : List Char :=
  let h := md5Blocks (md5Pad msg)
  (([h.1, h.2.1, h.2.2.1, h.2.2.2].map wordLEBytes).flatten.map byteHexChars).flatten

/-- Lowercase hexadecimal MD5 digest of a byte sequence. -/
def md5Hex (msg : List Nat) : String := String.mk (md5HexChars msg)

/-- UTF-8 bytes of one code point (Python `str.encode()`). -/
def utf8Bytes (c : Nat) : List Nat :=
  if c < 128 then [c]
  else if c < 2048 then [192 ||| (c >>> 6), 128 ||| (c &&& 63)]
  else if c < 65536 then
    [224 ||| (c >>> 12), 128 ||| ((c >>> 6) &&& 63), 128 ||| (c &&& 63)]
  else
    [240 ||| (c >>> 18), 128 ||| ((c >>> 12) &&& 63),
     128 ||| ((c >>> 6) &&& 63), 128 ||| (c &&& 63)]

def strBytes (s : String) : List Nat := (s.data.map (fun c => utf8Bytes c.toNat)).flatten

/-- Python `str.lower()` (ASCII range; the source applies it to email+phone). -/
def lowerChar (c : Char) : Char :=
  if 65 ≤ c.toNat && c.toNat ≤ 90 then Char.ofNat (c.toNat + 32) else c

def lowerStr (s : String) : String := String.mk (s.data.map lowerChar)

/-- `Lead.__post_init__`: first 12 hex characters of
`md5((email + phone).lower())`. -/
def leadIdOf (email phone : String) : String :=
  String.mk ((md5HexChars (strBytes (lowerStr (email ++ phone)))).take 12)

/-! ### Data model (`Lead`, `ProcessedLead`) -/

/-- `Lead` dataclass.  `intent_score` is declared `Optional[float] = None` in
the source and is never set anywhere in the workflow. -/
structure Lead where
  name : String
  email : String
  phone : String
  car_model : String
  appointment_datetime : String
  intent_score : Option Rat
  timestamp : String
  lead_id : String
deriving DecidableEq

/-- Python falsiness of an optional string (`None` and `""` are falsy),
used by the `if not self.timestamp` / `if not self.lead_id` guards. -/
def optFalsy (o : Option String) : Bool := o.getD "" == ""

/-- `Lead(...)` construction followed by `__post_init__`: default the
timestamp to `datetime.now().isoformat()` (passed in as `nowISO`) and derive
`lead_id` from email+phone only when the caller supplied a falsy value. -/
def Lead.make (name email phone car_model appointment_datetime : String)
    (timestampArg leadIdArg : Option String) (nowISO : String) : Lead :=
  { name := name, email := email, phone := phone, car_model := car_model,
    appointment_datetime := appointment_datetime,
    intent_score := none,
    timestamp := if optFalsy timestampArg then nowISO else timestampArg.getD "",
    lead_id := if optFalsy leadIdArg then leadIdOf email phone else leadIdArg.getD "" }

/-- `ProcessedLead` dataclass (the scorer's output). -/
structure ProcessedLead where
  name : String
  phone : String
  model : String
  datetime : String
  intent_score : Rat
deriving DecidableEq

/-! ### `LeadValidator` -/

/-- `[a-zA-Z0-9._%+-]` (the local-part character class). -/
def localChar (c : Char) : Bool :=
  c.isAlpha || c.isDigit || c == '.' || c == '_' || c == '%' || c == '+' || c == '-'

/-- `[a-zA-Z0-9.-]` (the domain character class). -/
def domChar (c : Char) : Bool := c.isAlpha || c.isDigit || c == '.' || c == '-'

/-- Split a character list at the first character satisfying `p`. -/
def splitFirst (p : Char → Bool) : List Char → Option (List Char × List Char)
  | [] => none
  | c :: cs => if p c then some ([], cs) else (splitFirst p cs).map (fun pr => (c :: pr.1, pr.2))

/-- Domain side of the email regex: `[a-zA-Z0-9.-]+\.[a-zA-Z]{2,}` anchored at
the end.  A match exists exactly when the maximal trailing alphabetic run has
length ≥ 2, is preceded by a literal dot, and the nonempty part before that
dot stays in the domain class. -/
def domainOk (dom : List Char) : Bool :=
  let r := dom.reverse
  let tld := r.takeWhile (fun c => c.isAlpha)
  decide (2 ≤ tld.length) &&
    (match r.dropWhile (fun c => c.isAlpha) with
     | d :: pre => d == '.' && !pre.isEmpty && pre.all domChar
     | [] => false)

/-- Full match of `^[a-zA-Z0-9._%+-]+@[a-zA-Z0-9.-]+\.[a-zA-Z]{2,}$` (both
character classes exclude `@`, so splitting at the first `@` is exact). -/
def emailCore (cs : List Char) : Bool :=
  match splitFirst (fun c => c == '@') cs with
  | none => false
  | some (lp, dom) => !lp.isEmpty && lp.all localChar && domainOk dom

/-- `LeadValidator.validate_email`.  Python's `$` also matches just before a
single trailing newline, hence the second disjunct. -/
def validate_email (email : String) : Bool :=
  if email = "" then false
  else
    emailCore email.data ||
      (email.data.getLast? == some '\x0a' && emailCore email.data.dropLast)

/-- Strip `-`, space, `(`, `)` (the `clean_phone` computation). -/
def cleanPhone (s : String) : List Char :=
  s.data.filter (fun c => !(c == '-' || c == ' ' || c == '(' || c == ')'))

def digitsRange (cs : List Char) : Bool :=
  cs.all (fun c => c.isDigit) && decide (9 ≤ cs.length) && decide (cs.length ≤ 15)

/-- `1?\d{9,15}$`: when the list starts with `1` the optional group may or
may not consume it. -/
def phoneTail (cs : List Char) : Bool :=
  (cs.head? == some '1' && digitsRange cs.tail) || digitsRange cs

/-- `^\+?1?\d{9,15}$` on the cleaned characters; a leading `+` can only be
consumed by the optional `\+?`. -/
def phoneCore : List Char → Bool
  | [] => false
  | c :: rest => if c == '+' then phoneTail rest else phoneTail (c :: rest)

/-- `LeadValidator.validate_phone` (same trailing-newline nuance of `$`). -/
def validate_phone (phone : String) : Bool :=
  if phone = "" then false
  else
    let cp := cleanPhone phone
    phoneCore cp || (cp.getLast? == some '\x0a' && phoneCore cp.dropLast)

/-- `dt_string.replace('Z', '+00:00')` — Python replaces every occurrence of
the single-character pattern. -/
def replaceZ (s : String) : String :=
  String.mk ((s.data.map (fun c => if c == 'Z' then "+00:00".data else [c])).flatten)

/-- `LeadValidator.validate_datetime`.  `datetime.fromisoformat` is external
(stdlib) and is passed in as the oracle `parse`; a parsed value is modelled as
minutes on an integer timeline and compared against `now` minus the 5-minute
buffer.  In the source the past-dated branch only emits `logger.warning` and
falls through to `return True`, which is why both branches of the inner `if`
are `true`; the `none` branch is the `except ValueError` path. -/
def validate_datetime (parse : String → Option Int) (now : Int) (dt_string : String) : Bool :=
  if dt_string = "" then false
  else
    match parse (replaceZ dt_string) with
    | some dt => if dt < now - 5 then true else true
    | none => false

/-! ### Inbound payload (the JSON dict handed to `process_lead`) -/

/-- The request dictionary: the five validated fields, the two extra keys the
`Lead` dataclass also accepts, and any unknown keys (`extra`), which make
`Lead(**lead_data)` raise `TypeError`. -/
structure Payload where
  name : Option String
  email : Option String
  phone : Option String
  car_model : Option String
  appointment_datetime : Option String
  lead_id : Option String
  timestamp : Option String
  extra : List String
deriving DecidableEq

/-- Dictionary lookup for the field names the validator queries. -/
def Payload.get (p : Payload) (f : String) : Option String :=
  if f == "name" then p.name
  else if f == "email" then p.email
  else if f == "phone" then p.phone
  else if f == "car_model" then p.car_model
  else if f == "appointment_datetime" then p.appointment_datetime
  else none

def requiredFields : List String :=
  ["name", "email", "phone", "car_model", "appointment_datetime"]

/-- `field not in data or not data[field]`. -/
def isMissing (data : Payload) (f : String) : Bool :=
  match data.get f with
  | none => true
  | some v => v == ""

def missingMsg (f : String) : String := "Missing required field: " ++ f

/-- `LeadValidator.validate_lead_data`: accumulate one error per missing
required field (in declaration order); only when none is missing run the
three shape checks; return `(len(errors) == 0, errors)`. -/
def validate_lead_data (parse : String → Option Int) (now : Int) (data : Payload) :
    Bool × List String :=
  let errs := requiredFields.filterMap
    (fun f => if isMissing data f then some (missingMsg f) else none)
  let errs2 :=
    if errs.isEmpty then
      (if validate_email ((data.get "email").getD "") then [] else ["Invalid email format"]) ++
      (if validate_phone ((data.get "phone").getD "") then [] else ["Invalid phone format"]) ++
      (if validate_datetime parse now ((data.get "appointment_datetime").getD "") then []
       else ["Invalid datetime format (use ISO 8601)"])
    else errs
  (errs2.isEmpty, errs2)

/-! ### `GroqProcessor` (intent scorer) -/

/-- A successfully parsed scoring-service reply: the JSON object the code
destructures into `ProcessedLead(**result)` after clamping. -/
structure ScoreResp where
  name : String
  phone : String
  model : String
  datetime : String
  intent_score : Rat
deriving DecidableEq

def max_retries : Nat := 3

/-- Python `min(a, b)` (returns the first argument on ties). -/
def rmin (a b : Rat) : Rat := if a ≤ b then a else b

/-- Python `max(a, b)` (returns the first argument on ties). -/
def rmax (a b : Rat) : Rat := if b ≤ a then a else b

/-- `max(0.0, min(1.0, x))`. -/
def clamp01 (x : Rat) : Rat := rmax 0 (rmin 1 x)

/-- The `for attempt in range(self.max_retries)` loop: attempt outcomes are
an oracle (`none` = malformed JSON or any other exception on that attempt,
both `except` arms continue to the next attempt); the first structured reply
is clamped and returned. -/
def analyzeLoop (attempts : Nat → Option ScoreResp) : Nat → Nat → Option ProcessedLead
  | _, 0 => none
  | i, n + 1 =>
    match attempts i with
    | some r => some ⟨r.name, r.phone, r.model, r.datetime, clamp01 r.intent_score⟩
    | none => analyzeLoop attempts (i + 1) n

/-- The fallback `ProcessedLead` built when every attempt failed. -/
def fallbackProcessed (lead : Lead) : ProcessedLead :=
  ⟨lead.name, lead.phone, lead.car_model, lead.appointment_datetime, mkRat 1 2⟩

/-- `GroqProcessor.analyze_lead`. -/
def analyze_lead (lead : Lead) (attempts : Nat → Option ScoreResp) : ProcessedLead :=
  (analyzeLoop attempts 0 max_retries).getD (fallbackProcessed lead)

/-! ### `GoogleSheetsLogger` — the sheet is a grid of cells, header row
first.  Numeric cells keep their number (gspread stores the appended float
as a number). -/

inductive Cell where
  | str (s : String)
  | num (q : Rat)
deriving DecidableEq

/-- Python `==` between a fetched cell value and a string key. -/
def cellEqStr (c : Cell) (s : String) : Bool :=
  match c with
  | .str t => t == s
  | .num _ => false

def headerRow : List Cell :=
  [.str "Timestamp", .str "Name", .str "Email", .str "Phone",
   .str "Car Model", .str "Appointment", .str "Intent Score"]

/-- `record.get(key)` on one `get_all_records` row: keys come from the header
row; absent column → `None` (which compares unequal to any string). -/
def recGet (hdr row : List Cell) (key : String) : Option Cell :=
  match hdr.findIdx? (fun h => cellEqStr h key) with
  | some i => some (row.getD i (.str ""))
  | none => none

def optCellEqStr (o : Option Cell) (s : String) : Bool :=
  match o with
  | some c => cellEqStr c s
  | none => false

/-- `GoogleSheetsLogger.lead_exists`: scan every record and compare the given
key against the `Email` and `Phone` columns ("since Lead ID column removed").
-/
def lead_exists (sheet : List (List Cell)) (lead_id : String) : Bool :=
  match sheet with
  | [] => false
  | hdr :: rows =>
    rows.any (fun r =>
      optCellEqStr (recGet hdr r "Email") lead_id ||
        optCellEqStr (recGet hdr r "Phone") lead_id)

/-- The row layout `log_lead` appends. -/
def mkRow (lead : Lead) (p : ProcessedLead) : List Cell :=
  [.str lead.timestamp, .str p.name, .str lead.email, .str p.phone,
   .str p.model, .str p.datetime, .num p.intent_score]

/-- `GoogleSheetsLogger.log_lead`: refuse (false) when `lead_exists` already
matches; otherwise append one row.  `appendOk = false` models the
`except Exception` transport path, which returns false without appending. -/
def log_lead (sheet : List (List Cell)) (appendOk : Bool) (lead : Lead) (p : ProcessedLead) :
    Bool × List (List Cell) :=
  if lead_exists sheet lead.lead_id then (false, sheet)
  else if appendOk then (true, sheet ++ [mkRow lead p])
  else (false, sheet)

/-- `sheet.find(value, in_column=2)`: index of the first row (header
included, top to bottom) whose second cell equals the value. -/
def findCol2 (grid : List (List Cell)) (value : String) : Option Nat :=
  match grid with
  | [] => none
  | r :: rs =>
    if cellEqStr (r.getD 1 (.str "")) value then some 0
    else (findCol2 rs value).map (· + 1)

/-- `update_cell(row, col, v)`: pad the row with empty cells if needed. -/
def setCell (row : List Cell) (i : Nat) (v : Cell) : List Cell :=
  (row ++ List.replicate (i + 1 - row.length) (Cell.str "")).set i v

/-- `GoogleSheetsLogger.update_lead_status`: locate by a column-2 scan, then
write status to column 9 and (when notes is truthy) notes to column 10. -/
def update_lead_status (grid : List (List Cell)) (lead_id status notes : String) :
    Bool × List (List Cell) :=
  match findCol2 grid lead_id with
  | none => (false, grid)
  | some i =>
    let row := grid.getD i []
    let row2 := setCell row 8 (.str status)
    let row3 := if notes = "" then row2 else setCell row2 9 (.str notes)
    (true, grid.set i row3)

/-! ### `LeadWorkflow.process_lead` -/

inductive NotificationChannel where
  | email
  | discord
deriving DecidableEq

def NotificationChannel.value : NotificationChannel → String
  | .email => "email"
  | .discord => "discord"

/-- The result dictionary `process_lead` builds and returns. -/
structure WResult where
  success : Bool
  lead_id : Option String
  errors : List String
  warnings : List String
  meet_link : Option String
  intent_score : Option Rat
deriving DecidableEq

def emptyResult : WResult :=
  { success := false, lead_id := none, errors := [], warnings := [],
    meet_link := none, intent_score := none }

/-- The workflow environment: external collaborators as oracles plus the
current sheet state.  `parse`/`now`/`nowISO` stand for the stdlib clock and
ISO parser, `attempts` for the scoring service, `appendOk` for the sheet
transport, `calendarLink` for `CalendarManager.create_event` (which returns
`None` on any fault), `channels`/`notifyOk` for the notification service. -/
structure Env where
  parse : String → Option Int
  now : Int
  nowISO : String
  sheet : List (List Cell)
  attempts : Nat → Option ScoreResp
  appendOk : Bool
  calendarLink : Option String
  channels : List NotificationChannel
  notifyOk : NotificationChannel → Bool

/-- The `Lead(**lead_data)` constructed in step 2 (only reached when
validation passed and there is no unexpected key). -/
def leadOf (env : Env) (data : Payload) : Lead :=
  Lead.make (data.name.getD "") (data.email.getD "") (data.phone.getD "")
    (data.car_model.getD "") (data.appointment_datetime.getD "")
    data.timestamp data.lead_id env.nowISO

/-- Python's `TypeError` text for an unexpected keyword argument. -/
def kwErrorMsg (k : String) : String :=
  "Lead.__init__() got an unexpected keyword argument " ++ k

/-- Step-7 loop body: a failed channel appends one warning. -/
def notifyStep (env : Env) (r : WResult) (c : NotificationChannel) : WResult :=
  if env.notifyOk c then r
  else { r with warnings := r.warnings ++ ["Failed to send " ++ c.value ++ " notification"] }

/-- `LeadWorkflow.process_lead`, with the sheet state threaded explicitly
(the pair's second component is the sheet after the call).  The only
statement in the `try` body that can raise is `Lead(**lead_data)` — every
collaborator call catches its own exceptions and returns a
boolean/optional — and that raise is caught by the outer `except`, which
appends a single "Unexpected error: ..." entry; the function is total, so the
caller always receives a well-formed result. -/
def process_lead (env : Env) (data : Payload) : WResult × List (List Cell) :=
  let v := validate_lead_data env.parse env.now data
  if v.1 = false then
    ({ emptyResult with errors := v.2 }, env.sheet)
  else if data.extra.isEmpty = false then
    ({ emptyResult with
        errors := ["Unexpected error: " ++ kwErrorMsg (data.extra.headD "")] }, env.sheet)
  else
    let lead := leadOf env data
    let r1 := { emptyResult with lead_id := some lead.lead_id }
    if lead_exists env.sheet lead.lead_id then
      ({ r1 with errors := ["Duplicate lead - already processed"] }, env.sheet)
    else
      let pl := analyze_lead lead env.attempts
      let r2 := { r1 with intent_score := some pl.intent_score }
      let r3 :=
        if pl.intent_score = mkRat 1 2 then
          { r2 with warnings := r2.warnings ++
              ["AI analysis failed - using default score - manual review recommended"] }
        else r2
      let st := log_lead env.sheet env.appendOk lead pl
      let r4 :=
        if st.1 then r3
        else { r3 with errors := r3.errors ++ ["Failed to log to Google Sheets"] }
      let r5 := { r4 with meet_link := env.calendarLink }
      let r6 :=
        if env.calendarLink.isNone then
          { r5 with warnings := r5.warnings ++ ["Failed to create calendar event"] }
        else r5
      let r7 := env.channels.foldl (notifyStep env) r6
      ({ r7 with success := true }, st.2)

theorem md5_test_vector_empty : md5Hex (strBytes "") = "d41d8cd98f00b204e9800998ecf8427e" := by
  decide

theorem md5_test_vector_abc : md5Hex (strBytes "abc") = "900150983cd24fb0d6963f7d28e17f72" := by
  decide

theorem leadIdOf_test_vector : leadIdOf "a@b.com" "1234567890" = "f761bbbbd01b" := by
  decide

/-! ### Helper lemmas -/

theorem clamp01_nonneg (x : Rat) : 0 ≤ clamp01 x := by
  unfold clamp01 rmax rmin
  split_ifs <;> linarith

theorem clamp01_le_one (x : Rat) : clamp01 x ≤ 1 := by
  unfold clamp01 rmax rmin
  split_ifs <;> linarith

theorem analyzeLoop_bounds (attempts : Nat → Option ScoreResp) :
    ∀ n i p, analyzeLoop attempts i n = some p →
      0 ≤ p.intent_score ∧ p.intent_score ≤ 1 := by
  intro n
  induction n with
  | zero => intro i p h; exact absurd h (by simp [analyzeLoop])
  | succ m ih =>
    intro i p h
    rw [analyzeLoop] at h
    cases hi : attempts i with
    | some r =>
      rw [hi] at h
      cases h
      exact ⟨clamp01_nonneg r.intent_score, clamp01_le_one r.intent_score⟩
    | none =>
      rw [hi] at h
      exact ih (i + 1) p h

theorem analyzeLoop_none (attempts : Nat → Option ScoreResp) :
    ∀ n i, (∀ j, j < n → attempts (i + j) = none) → analyzeLoop attempts i n = none := by
  intro n
  induction n with
  | zero => intro i _; rfl
  | succ m ih =>
    intro i h
    have h0 : attempts i = none := by simpa using h 0 (Nat.succ_pos m)
    rw [analyzeLoop, h0]
    apply ih
    intro j hj
    have := h (j + 1) (Nat.succ_lt_succ hj)
    rwa [show i + (j + 1) = i + 1 + j by omega] at this

theorem analyze_all_fail (attempts : Nat → Option ScoreResp) (lead : Lead)
    (hall : ∀ i, i < max_retries → attempts i = none) :
    analyze_lead lead attempts = fallbackProcessed lead := by
  have : analyzeLoop attempts 0 max_retries = none := by
    apply analyzeLoop_none
    intro j hj
    simpa using hall j hj
  simp [analyze_lead, this]

theorem filterMap_if_eq_map_filter (l : List String) (p : String → Bool) (g : String → String) :
    l.filterMap (fun f => if p f then some (g f) else none) = (l.filter p).map g := by
  induction l with
  | nil => rfl
  | cons a l ih => by_cases h : p a <;> simp [h, ih]

theorem notifyFold_eq (env : Env) (cs : List NotificationChannel) (r : WResult) :
    cs.foldl (notifyStep env) r
      = { r with warnings := r.warnings ++ cs.filterMap (fun c =>
            if env.notifyOk c then none
            else some ("Failed to send " ++ c.value ++ " notification")) } := by
  induction cs generalizing r with
  | nil => simp
  | cons c cs ih =>
    by_cases h : env.notifyOk c
    · simp [notifyStep, h, ih]
    · simp [notifyStep, h, ih]

/-- The happy path of the orchestrator (validation passed, no unexpected
keyword, dedupe check negative), with every remaining step's outcome spelled
out in terms of the environment's oracles. -/
theorem process_lead_happy (env : Env) (data : Payload)
    (hv : (validate_lead_data env.parse env.now data).1 = true)
    (hx : data.extra = [])
    (hd : lead_exists env.sheet (leadOf env data).lead_id = false) :
    process_lead env data =
      ({ success := true,
         lead_id := some (leadOf env data).lead_id,
         errors := if env.appendOk then [] else ["Failed to log to Google Sheets"],
         warnings :=
           ((if (analyze_lead (leadOf env data) env.attempts).intent_score = mkRat 1 2 then
               ["AI analysis failed - using default score - manual review recommended"]
             else [])
            ++ (if env.calendarLink.isNone then ["Failed to create calendar event"] else []))
           ++ env.channels.filterMap (fun c =>
                if env.notifyOk c then none
                else some ("Failed to send " ++ c.value ++ " notification")),
         meet_link := env.calendarLink,
         intent_score := some (analyze_lead (leadOf env data) env.attempts).intent_score },
       if env.appendOk then
         env.sheet ++ [mkRow (leadOf env data) (analyze_lead (leadOf env data) env.attempts)]
       else env.sheet) := by
  simp only [process_lead, hv, hx, hd, log_lead, notifyFold_eq, emptyResult]
  split_ifs <;> simp_all

theorem findCol2_none (grid : List (List Cell)) (value : String)
    (h : ∀ r ∈ grid, cellEqStr (r.getD 1 (.str "")) value = false) :
    findCol2 grid value = none := by
  induction grid with
  | nil => rfl
  | cons r rs ih =>
    have h0 := h r (List.mem_cons_self r rs)
    simp only [findCol2]
    rw [h0]
    simp [ih (fun x hx => h x (List.mem_cons_of_mem r hx))]

/-! ### Concrete fixtures for closed evaluations -/

/-- A well-formed submission with no caller-supplied `lead_id`/`timestamp`. -/
def payC1 : Payload :=
  { name := some "Jane Doe", email := some "a@b.com", phone := some "1234567890",
    car_model := some "Sedan", appointment_datetime := some "2030-01-01T10:00:00",
    lead_id := none, timestamp := none, extra := [] }

/-- A structured scoring reply for the fixture lead. -/
def respC : ScoreResp := ⟨"Jane Doe", "1234567890", "Sedan", "2030-01-01T10:00:00", mkRat 9 10⟩

/-- An environment where every collaborator succeeds and the store holds only
the header row. -/
def envC1 : Env :=
  { parse := fun s => if s = "2030-01-01T10:00:00" then some 0 else none,
    now := 0, nowISO := "2026-10-12T00:00:00",
    sheet := [headerRow], attempts := fun _ => some respC, appendOk := true,
    calendarLink := some "https://meet.google.com/new",
    channels := [.discord, .email], notifyOk := fun _ => true }

/-- The same environment after the first submission was processed. -/
def envC1b : Env := { envC1 with sheet := (process_lead envC1 payC1).2 }

/-! ### Claim theorems -/

/-- C1: the claim says the second of two submissions with identical email and
phone is rejected with "Duplicate lead - already processed" because
`lead_exists(lead_id)` returns true.  Evaluating the embedding at a concrete
pair of identical submissions shows the opposite: the derived `lead_id` is a
12-character hex digest which never equals the stored `Email`/`Phone` cells
that `lead_exists` compares it against, so the check returns false, the
second submission succeeds with no errors, and a second (duplicate) row is
appended to the store. -/
theorem C1_second_submission_not_rejected :
    (leadOf envC1 payC1).lead_id = "f761bbbbd01b"
      ∧ (process_lead envC1 payC1).1.success = true
      ∧ (process_lead envC1 payC1).2
          = [headerRow, mkRow (leadOf envC1 payC1) (analyze_lead (leadOf envC1 payC1) envC1.attempts)]
      ∧ lead_exists (process_lead envC1 payC1).2 (leadOf envC1 payC1).lead_id = false
      ∧ (process_lead envC1b payC1).1.success = true
      ∧ (process_lead envC1b payC1).1.errors = []
      ∧ (process_lead envC1b payC1).2.length = 3 := by
  decide

/-- C5: when any required field is missing or empty, `validate_lead_data`
returns ok=false with exactly one "Missing required field" error per missing
field, in the declared field order (the map over the order-preserving
filter), the e-th returned error is always a missing-field message (no shape
error appears), and in general ok=true exactly when the error list is
empty. -/
theorem C5_missing_required_fields (parse : String → Option Int) (now : Int)
    (data : Payload) (e : String)
    (h : ∃ f ∈ requiredFields, isMissing data f = true)
    (he : e ∈ (validate_lead_data parse now data).2) :
    validate_lead_data parse now data
        = (false, (requiredFields.filter (fun f => isMissing data f)).map missingMsg)
      ∧ (∃ f ∈ requiredFields, e = missingMsg f)
      ∧ ((validate_lead_data parse now data).1 = true
          ↔ (validate_lead_data parse now data).2 = []) := by
  obtain ⟨f, hf, hm⟩ := h
  have hmem : missingMsg f ∈ requiredFields.filterMap
      (fun f => if isMissing data f then some (missingMsg f) else none) :=
    List.mem_filterMap.mpr ⟨f, hf, by simp [hm]⟩
  have hne : (requiredFields.filterMap
      (fun f => if isMissing data f then some (missingMsg f) else none)).isEmpty = false := by
    cases hh : requiredFields.filterMap
        (fun f => if isMissing data f then some (missingMsg f) else none) with
    | nil => rw [hh] at hmem; exact absurd hmem (List.not_mem_nil _)
    | cons a l => rfl
  have heq : validate_lead_data parse now data
      = (false, (requiredFields.filter (fun f => isMissing data f)).map missingMsg) := by
    simp only [validate_lead_data, hne, if_neg Bool.false_ne_true,
      filterMap_if_eq_map_filter] at *
    simp [validate_lead_data, hne, filterMap_if_eq_map_filter]
  refine ⟨heq, ?_, ?_⟩
  · rw [heq] at he
    obtain ⟨g, hg, hge⟩ := List.mem_map.mp he
    exact ⟨g, List.mem_of_mem_filter hg, hge.symm⟩
  · have : (validate_lead_data parse now data).1
        = (validate_lead_data parse now data).2.isEmpty := rfl
    rw [this]
    exact ⟨fun hh => List.isEmpty_iff.mp hh, fun hh => List.isEmpty_iff.mpr hh⟩

/-- A submission with an empty name and a missing phone. -/
def payMissing : Payload :=
  { name := some "", email := some "a@b.com", phone := none,
    car_model := some "X", appointment_datetime := some "2030-01-01T10:00:00",
    lead_id := none, timestamp := none, extra := [] }

/-- Witness for C5 at a payload missing `name` and `phone`. -/
theorem C5_missing_required_fields_witness :
    validate_lead_data (fun _ => none) 0 payMissing
        = (false, (requiredFields.filter (fun f => isMissing payMissing f)).map missingMsg)
      ∧ (∃ f ∈ requiredFields, "Missing required field: name" = missingMsg f)
      ∧ ((validate_lead_data (fun _ => none) 0 payMissing).1 = true
          ↔ (validate_lead_data (fun _ => none) 0 payMissing).2 = []) :=
  C5_missing_required_fields (fun _ => none) 0 payMissing "Missing required field: name"
    ⟨"name", by decide, by decide⟩ (by decide)

/-- C6: two `Lead` constructions that share email and phone and supply no
`lead_id` derive the same id whatever the other fields are, and that id is
the first 12 hex characters of the MD5 digest of the lowercased
concatenation of email and phone. -/
theorem C6_lead_id_deterministic (email phone n1 n2 m1 m2 d1 d2 nowA nowB : String)
    (ts1 ts2 : Option String) :
    (Lead.make n1 email phone m1 d1 ts1 none nowA).lead_id
        = (Lead.make n2 email phone m2 d2 ts2 none nowB).lead_id
      ∧ (Lead.make n1 email phone m1 d1 ts1 none nowA).lead_id
        = String.mk ((md5HexChars (strBytes (lowerStr (email ++ phone)))).take 12) :=
  ⟨rfl, rfl⟩

/-- C7: whatever the lead and whatever the sequence of scoring-service
outcomes, the returned intent score lies in [0, 1]: parsed scores are
clamped and the fallback is 1/2. -/
theorem C7_intent_score_in_unit_interval (lead : Lead) (attempts : Nat → Option ScoreResp) :
    0 ≤ (analyze_lead lead attempts).intent_score
      ∧ (analyze_lead lead attempts).intent_score ≤ 1 := by
  unfold analyze_lead
  cases h : analyzeLoop attempts 0 max_retries with
  | none => norm_num [fallbackProcessed]
  | some p => simpa using analyzeLoop_bounds attempts max_retries 0 p h

/-- C8: a nonempty datetime string accepted by the (oracle) ISO-8601 parser
after the `Z → +00:00` substitution validates as true even when the parsed
instant lies before now − 5 minutes (the past-dated branch only logs), and
`validate_datetime` returns false exactly on the empty string or a parse
failure. -/
theorem C8_datetime_lenient (parse : String → Option Int) (now : Int) (s u : String) (t : Int)
    (hs : s ≠ "") (hp : parse (replaceZ s) = some t) (hpast : t < now - 5) :
    validate_datetime parse now s = true
      ∧ (validate_datetime parse now u = false ↔ (u = "" ∨ parse (replaceZ u) = none)) := by
  constructor
  · simp [validate_datetime, hs, hp]
  · by_cases hu : u = ""
    · simp [validate_datetime, hu]
    · cases hpu : parse (replaceZ u) with
      | none => simp [validate_datetime, hu, hpu]
      | some t2 => simp [validate_datetime, hu, hpu]

/-- The parser oracle for the C8 witness. -/
def parseW : String → Option Int :=
  fun s => if s = "2020-01-01T00:00:00+00:00" then some 100 else none

/-- Witness for C8: a string 15 years in the past (now = minute 8000000)
with a trailing Z still validates; a non-parsing string is rejected. -/
theorem C8_datetime_lenient_witness :
    validate_datetime parseW 8000000 "2020-01-01T00:00:00Z" = true
      ∧ (validate_datetime parseW 8000000 "not-a-date" = false
          ↔ ("not-a-date" = "" ∨ parseW (replaceZ "not-a-date") = none)) :=
  C8_datetime_lenient parseW 8000000 "2020-01-01T00:00:00Z" "not-a-date" 100
    (by decide) (by decide) (by decide)

/-- C2: for a valid, non-duplicate payload, when `log_lead` returns false
while scoring, calendar creation and all notifications succeed, the workflow
still reports success=true, the error list is exactly the single storage
entry, and the calendar step still ran (the result carries its link). -/
theorem C2_storage_failure_nonblocking (env : Env) (data : Payload) (link : String)
    (resp : ScoreResp)
    (hv : (validate_lead_data env.parse env.now data).1 = true)
    (hx : data.extra = [])
    (hd : lead_exists env.sheet (leadOf env data).lead_id = false)
    (hscore : env.attempts 0 = some resp)
    (hlog : (log_lead env.sheet env.appendOk (leadOf env data)
        (analyze_lead (leadOf env data) env.attempts)).1 = false)
    (hcal : env.calendarLink = some link)
    (hnot : ∀ c ∈ env.channels, env.notifyOk c = true) :
    (process_lead env data).1.success = true
      ∧ (process_lead env data).1.errors = ["Failed to log to Google Sheets"]
      ∧ (process_lead env data).1.meet_link = some link := by
  have hap : env.appendOk = false := by
    have h2 : (log_lead env.sheet env.appendOk (leadOf env data)
        (analyze_lead (leadOf env data) env.attempts)).1 = env.appendOk := by
      cases ha : env.appendOk <;> simp [log_lead, hd, ha]
    exact h2.symm.trans hlog
  rw [process_lead_happy env data hv hx hd]
  simp [hap, hcal]

/-- The all-success environment with a failing sheet transport. -/
def envC2 : Env := { envC1 with appendOk := false }

/-- Witness for C2: concrete run with the append transport down. -/
theorem C2_storage_failure_nonblocking_witness :
    (process_lead envC2 payC1).1.success = true
      ∧ (process_lead envC2 payC1).1.errors = ["Failed to log to Google Sheets"]
      ∧ (process_lead envC2 payC1).1.meet_link = some "https://meet.google.com/new" :=
  C2_storage_failure_nonblocking envC2 payC1 "https://meet.google.com/new" respC
    (by decide) (by decide) (by decide) (by decide) (by decide) (by decide) (by decide)

/-- C3: `process_lead` is a total function into the six-field result record,
and the one raise site its `try` body can reach (`Lead(**lead_data)` on an
unexpected key, every collaborator catching its own faults) is converted at
the outer boundary into a single appended "Unexpected error: ..." string with
success still false and the store untouched. -/
theorem C3_unexpected_exception_converted (env : Env) (data : Payload)
    (k : String) (ks : List String)
    (hv : (validate_lead_data env.parse env.now data).1 = true)
    (hx : data.extra = k :: ks) :
    (process_lead env data).1
        = { success := false, lead_id := none,
            errors := ["Unexpected error: " ++ kwErrorMsg k],
            warnings := [], meet_link := none, intent_score := none }
      ∧ (process_lead env data).2 = env.sheet := by
  constructor <;> simp [process_lead, hv, hx, emptyResult]

/-- A valid submission carrying an unexpected key. -/
def payX : Payload := { payC1 with extra := ["foo"] }

/-- Witness for C3 at a payload with the unexpected key "foo". -/
theorem C3_unexpected_exception_converted_witness :
    (process_lead envC1 payX).1
        = { success := false, lead_id := none,
            errors := ["Unexpected error: " ++ kwErrorMsg "foo"],
            warnings := [], meet_link := none, intent_score := none }
      ∧ (process_lead envC1 payX).2 = envC1.sheet :=
  C3_unexpected_exception_converted envC1 payX "foo" [] (by decide) (by decide)

/-- C4: when all 3 scoring attempts fail, `analyze_lead` returns a
`ProcessedLead` copying the lead's own fields verbatim with score exactly
1/2, and on the workflow's path the manual-review warning is then present
(it is appended whenever the returned score equals 1/2). -/
theorem C4_scoring_fallback_and_warning (env : Env) (data : Payload) (lead : Lead)
    (hall : ∀ i, i < max_retries → env.attempts i = none)
    (hv : (validate_lead_data env.parse env.now data).1 = true)
    (hx : data.extra = [])
    (hd : lead_exists env.sheet (leadOf env data).lead_id = false) :
    analyze_lead lead env.attempts
        = { name := lead.name, phone := lead.phone, model := lead.car_model,
            datetime := lead.appointment_datetime, intent_score := mkRat 1 2 }
      ∧ "AI analysis failed - using default score - manual review recommended"
          ∈ (process_lead env data).1.warnings := by
  constructor
  · rw [analyze_all_fail env.attempts lead hall]; rfl
  · rw [process_lead_happy env data hv hx hd,
      analyze_all_fail env.attempts (leadOf env data) hall]
    simp [fallbackProcessed]

/-- The all-success environment with a scoring service that always fails. -/
def envC4 : Env := { envC1 with attempts := fun _ => none }

/-- Witness for C4: concrete run with all scoring attempts failing. -/
theorem C4_scoring_fallback_and_warning_witness :
    analyze_lead (leadOf envC4 payC1) envC4.attempts
        = { name := (leadOf envC4 payC1).name, phone := (leadOf envC4 payC1).phone,
            model := (leadOf envC4 payC1).car_model,
            datetime := (leadOf envC4 payC1).appointment_datetime,
            intent_score := mkRat 1 2 }
      ∧ "AI analysis failed - using default score - manual review recommended"
          ∈ (process_lead envC4 payC1).1.warnings :=
  C4_scoring_fallback_and_warning envC4 payC1 (leadOf envC4 payC1)
    (fun _ _ => rfl) (by decide) (by decide) (by decide)

/-- C9: on a store consisting of the header row plus rows produced by
`log_lead`'s append layout (whose column 2 holds the processed name, never
the derived id), `update_lead_status` with a key matching no column-2 value
finds nothing, returns false, and leaves the store unchanged. -/
theorem C9_update_status_misses_append_layout (rows : List (List Cell))
    (lead_id status notes : String)
    (hrows : ∀ r ∈ rows, ∃ l p, r = mkRow l p ∧ p.name ≠ lead_id)
    (hhdr : lead_id ≠ "Name") :
    update_lead_status (headerRow :: rows) lead_id status notes
      = (false, headerRow :: rows) := by
  have hnone : findCol2 (headerRow :: rows) lead_id = none := by
    apply findCol2_none
    intro r hr
    rcases List.mem_cons.mp hr with h | h
    · subst h
      simp only [headerRow, List.getD_cons_succ, List.getD_cons_zero, cellEqStr]
      exact beq_eq_false_iff_ne.mpr (fun he => hhdr he.symm)
    · obtain ⟨l, p, rfl, hne⟩ := hrows r h
      simp only [mkRow, List.getD_cons_succ, List.getD_cons_zero, cellEqStr]
      exact beq_eq_false_iff_ne.mpr hne
  simp [update_lead_status, hnone]

/-- The lead and processed record of the C1 fixture run. -/
def leadW : Lead := leadOf envC1 payC1

def procW : ProcessedLead := analyze_lead leadW envC1.attempts

/-- Witness for C9: even the genuine derived id of the stored row's lead is
not found, because column 2 holds the name. -/
theorem C9_update_status_misses_append_layout_witness :
    update_lead_status (headerRow :: [mkRow leadW procW]) "f761bbbbd01b" "CONTACTED" "call later"
      = (false, headerRow :: [mkRow leadW procW]) := by
  apply C9_update_status_misses_append_layout
  · intro r hr
    exact ⟨leadW, procW, List.mem_singleton.mp hr, by decide⟩
  · decide

/-- C10: a validated payload carrying a non-empty `lead_id` key makes the
constructed `Lead` use the caller's string verbatim (derivation skipped), the
result's lead_id is that string, the duplicate check is keyed on it, and a
caller-supplied non-empty `timestamp` is likewise used verbatim. -/
theorem C10_caller_supplied_identity (env : Env) (data : Payload)
    (s t nm em ph cm ad : String)
    (hs : data.lead_id = some s) (hs0 : s ≠ "") (ht0 : t ≠ "")
    (hv : (validate_lead_data env.parse env.now data).1 = true)
    (hx : data.extra = []) :
    (leadOf env data).lead_id = s
      ∧ (process_lead env data).1.lead_id = some s
      ∧ (lead_exists env.sheet s = true →
          (process_lead env data).1.success = false
            ∧ (process_lead env data).1.errors = ["Duplicate lead - already processed"])
      ∧ (Lead.make nm em ph cm ad (some t) (some s) env.nowISO).timestamp = t
      ∧ (Lead.make nm em ph cm ad (some t) (some s) env.nowISO).lead_id = s := by
  have hid : (leadOf env data).lead_id = s := by
    simp [leadOf, Lead.make, hs, optFalsy, hs0]
  refine ⟨hid, ?_, ?_, ?_, ?_⟩
  · by_cases hdup : lead_exists env.sheet (leadOf env data).lead_id = true
    · simp only [process_lead, hv, hx, hdup, emptyResult]
      simp [hdup, hid]
    · have hd : lead_exists env.sheet (leadOf env data).lead_id = false := by
        simpa using hdup
      rw [process_lead_happy env data hv hx hd]
      simp [hid]
  · intro hex
    have hex2 : lead_exists env.sheet (leadOf env data).lead_id = true := by
      rw [hid]; exact hex
    constructor <;> simp [process_lead, hv, hx, hex2, emptyResult]
  · simp [Lead.make, optFalsy, ht0]
  · simp [Lead.make, optFalsy, hs0]

/-- The C1 payload with caller-supplied identity fields. -/
def payC10 : Payload :=
  { payC1 with lead_id := some "custom-id-1", timestamp := some "2026-01-01T00:00:00" }

/-- A store whose single data row has the caller-chosen id in its Email
column, so the duplicate check keyed on that id fires. -/
def envC10 : Env :=
  { envC1 with sheet :=
      [headerRow,
       [Cell.str "t0", Cell.str "Bob", Cell.str "custom-id-1", Cell.str "555",
        Cell.str "M", Cell.str "D", Cell.num (mkRat 1 2)]] }

/-- Witness for C10 at a concrete payload supplying `lead_id` and
`timestamp`. -/
theorem C10_caller_supplied_identity_witness :
    (leadOf envC10 payC10).lead_id = "custom-id-1"
      ∧ (process_lead envC10 payC10).1.lead_id = some "custom-id-1"
      ∧ (lead_exists envC10.sheet "custom-id-1" = true →
          (process_lead envC10 payC10).1.success = false
            ∧ (process_lead envC10 payC10).1.errors = ["Duplicate lead - already processed"])
      ∧ (Lead.make "n" "e" "p" "c" "a" (some "2026-01-01T00:00:00") (some "custom-id-1")
          envC10.nowISO).timestamp = "2026-01-01T00:00:00"
      ∧ (Lead.make "n" "e" "p" "c" "a" (some "2026-01-01T00:00:00") (some "custom-id-1")
          envC10.nowISO).lead_id = "custom-id-1" :=
  C10_caller_supplied_identity envC10 payC10 "custom-id-1" "2026-01-01T00:00:00"
    "n" "e" "p" "c" "a" (by decide) (by decide) (by decide) (by decide) (by decide)

end LeadAuto
